import Mathlib

/-!
Verification of the loan-sizer computational core (`src/app/page.tsx`).

The core consists of:
* the zod input schema `loanSizerSchema` (lines 11-19),
* the formula table `loanFormulas` (lines 24-48),
* the rule table `validationRules` (lines 51-55),
* the validation engine `validateInputs` (lines 84-100),
* the formula engine `calculateLoan` (lines 102-133).

JavaScript numbers are embedded as exact rationals (`ℚ`); `Math.round`
(round-half-toward-positive-infinity) is embedded as `jsRound`.  The module-level
constant `validationRules` that `validateInputs` and `calculateLoan` close over
is embedded by passing the rule record explicitly, with `validationRules` as the
record the source defines.
-/

namespace LoanSizer

/-- The deal input record, shape of `LoanSizerForm = z.infer<typeof loanSizerSchema>`.
`transactionType` and `borrowerExperience` are strings in the source (zod enums);
they are kept as strings here because `loanFormulas.ltvByExperience` has a default
branch for unrecognized experience strings. -/
structure LoanSizerForm where
  address : String
  transactionType : String
  purchasePrice : ℚ
  rehabBudget : ℚ
  arv : ℚ
  borrowerFico : ℚ
  borrowerExperience : String

/-- Field-level messages of the zod schema `loanSizerSchema` (page.tsx lines 11-19):
`address: min length 1`, `purchasePrice: min 1000`, `rehabBudget: min 0`,
`arv: min 1000`, `borrowerFico: min 300 / max 850`.  The `min(300)` bound carries
zod's default message.  Enum membership for `transactionType` and
`borrowerExperience` is enforced by zod at parse time and not modelled as a message. -/
def loanSizerSchemaErrors (data : LoanSizerForm) : List String :=
  (if 1 ≤ data.address.length then [] else ["Address is required"]) ++
  (if 1000 ≤ data.purchasePrice then [] else ["Purchase price must be at least $1,000"]) ++
  (if 0 ≤ data.rehabBudget then [] else ["Rehab budget cannot be negative"]) ++
  (if 1000 ≤ data.arv then [] else ["ARV must be at least $1,000"]) ++
  (if 300 ≤ data.borrowerFico then [] else ["Number must be greater than or equal to 300"]) ++
  (if data.borrowerFico ≤ 850 then [] else ["FICO score must be between 300-850"])

/-- A `DealInput` within the schema invariants (spec section 3): the domain the
universally quantified claims range over. -/
def LoanSizerForm.valid (data : LoanSizerForm) : Prop :=
  1 ≤ data.address.length ∧
  (data.transactionType = "Purchase" ∨ data.transactionType = "Refinance" ∨
    data.transactionType = "Cash-Out Refinance") ∧
  1000 ≤ data.purchasePrice ∧
  0 ≤ data.rehabBudget ∧
  1000 ≤ data.arv ∧
  300 ≤ data.borrowerFico ∧ data.borrowerFico ≤ 850 ∧
  (data.borrowerExperience = "Beginner" ∨ data.borrowerExperience = "Intermediate" ∨
    data.borrowerExperience = "Experienced" ∨ data.borrowerExperience = "Professional")

instance (data : LoanSizerForm) : Decidable data.valid := by
  unfold LoanSizerForm.valid; infer_instance

/-- `loanFormulas.maxLoanAmount` (page.tsx line 25): `arv * (ltv / 100)`. -/
def loanFormulas.maxLoanAmount (arv ltv : ℚ) : ℚ := arv * (ltv / 100)

/-- `loanFormulas.interestRate` (page.tsx lines 26-36): start at 8.5, apply the
single highest matching FICO-tier discount via the cascading `if`-`else if`
chain, then the experience discount, then `Math.max(baseRate, 6.0)`. -/
def loanFormulas.interestRate (fico : ℚ) (experience : String) : ℚ :=
  let baseRate : ℚ := 8.5
  let baseRate : ℚ :=
    if fico ≥ 750 then baseRate - 1.5
    else if fico ≥ 700 then baseRate - 1.0
    else if fico ≥ 650 then baseRate - 0.5
    else baseRate
  let baseRate : ℚ :=
    if experience = "Professional" then baseRate - 0.5
    else if experience = "Experienced" then baseRate - 0.25
    else baseRate
  max baseRate 6.0

/-- `loanFormulas.ltvByExperience` (page.tsx lines 37-45): the `switch` on the
experience string, with `default: return 70`. -/
def loanFormulas.ltvByExperience (experience : String) : ℚ :=
  if experience = "Professional" then 85
  else if experience = "Experienced" then 80
  else if experience = "Intermediate" then 75
  else if experience = "Beginner" then 70
  else 70

/-- `loanFormulas.closingCosts` (page.tsx line 46): `loanAmount * 0.03`. -/
def loanFormulas.closingCosts (loanAmount : ℚ) : ℚ := loanAmount * 0.03

/-- `loanFormulas.originationFee` (page.tsx line 47): `loanAmount * 0.01`. -/
def loanFormulas.originationFee (loanAmount : ℚ) : ℚ := loanAmount * 0.01

/-- The validation rule record (page.tsx lines 51-55).  `maxRehabBudget` is a
function of the purchase price in the source. -/
structure ValidationRules where
  minFico : ℚ
  maxRehabBudget : ℚ → ℚ
  minArvToPurchaseRatio : ℚ

/-- The module-level default rule record (page.tsx lines 51-55). -/
def validationRules : ValidationRules :=
  { minFico := 650
    maxRehabBudget := fun purchasePrice => purchasePrice * 0.5
    minArvToPurchaseRatio := 1.2 }

/-- `validateInputs` (page.tsx lines 84-100): runs the three checks in order,
pushing a message for each violated one, and returns the collected list.
The source closes over the module constant `validationRules`; it is passed
explicitly here. -/
def validateInputs (data : LoanSizerForm) (rules : ValidationRules) : List String :=
  (if data.borrowerFico < rules.minFico
    then ["FICO score must be at least " ++ toString rules.minFico ++ " for approval"]
    else []) ++
  (if data.rehabBudget > rules.maxRehabBudget data.purchasePrice
    then ["Rehab budget cannot exceed 50% of purchase price"]
    else []) ++
  (if data.arv / data.purchasePrice < rules.minArvToPurchaseRatio
    then ["ARV should be at least 120% of purchase price for optimal financing"]
    else [])

/-- `Math.round`: round to the nearest integer, halves toward positive infinity. -/
def jsRound (x : ℚ) : ℤ := ⌊x + 1 / 2⌋

/-- The monthly-payment expression of `calculateLoan` (page.tsx lines 116-117):
`(maxLoanAmount * (interestRate / 100) / 12) / (1 - (1 + (interestRate / 100) / 12) ^ (-360))`.
There is no special case for a zero interest rate in the source. -/
def monthlyPaymentFormula (maxLoanAmount interestRate : ℚ) : ℚ :=
  (maxLoanAmount * (interestRate / 100) / 12) /
    (1 - (1 + (interestRate / 100) / 12) ^ (-360 : ℤ))

/-- The result record produced by `calculateLoan` (page.tsx lines 119-129).
Fields passed through `Math.round` are integers; `interestRate` (rounded to two
decimals) and `ltv` (not rounded) stay rational. -/
structure CalculatedLoan where
  maxLoanAmount : ℤ
  interestRate : ℚ
  ltv : ℚ
  downPayment : ℤ
  closingCosts : ℤ
  originationFee : ℤ
  monthlyPayment : ℤ
  totalProjectCost : ℤ
  approvalStatus : String
deriving DecidableEq, Repr

/-- `calculateLoan` (page.tsx lines 102-133), minus the UI state plumbing and the
simulated delay: the `let` chain of lines 107-117 followed by the rounded result
record of lines 119-129.  The source reads `validationRules.minFico` from the
module constant; the rule record is passed explicitly here. -/
def calculateLoan (data : LoanSizerForm) (rules : ValidationRules) : CalculatedLoan :=
  let ltv := loanFormulas.ltvByExperience data.borrowerExperience
  let maxLoanAmount := loanFormulas.maxLoanAmount data.arv ltv
  let interestRate := loanFormulas.interestRate data.borrowerFico data.borrowerExperience
  let closingCosts := loanFormulas.closingCosts maxLoanAmount
  let originationFee := loanFormulas.originationFee maxLoanAmount
  let totalProjectCost := data.purchasePrice + data.rehabBudget
  let downPayment := totalProjectCost - maxLoanAmount
  let monthlyPayment := monthlyPaymentFormula maxLoanAmount interestRate
  { maxLoanAmount := jsRound maxLoanAmount
    interestRate := (jsRound (interestRate * 100) : ℚ) / 100
    ltv := ltv
    downPayment := jsRound downPayment
    closingCosts := jsRound closingCosts
    originationFee := jsRound originationFee
    monthlyPayment := jsRound monthlyPayment
    totalProjectCost := jsRound totalProjectCost
    approvalStatus := if data.borrowerFico ≥ rules.minFico then "Approved" else "Pending Review" }

/-! Spec-side definitions, written from the spec's wording (section 4.2 step 3 and
the design note asking for an explicit ordered table of threshold-discount pairs),
to be compared with the source's cascading-conditional `loanFormulas.interestRate`. -/

/-- Modelled from the spec: the FICO discount of the single highest tier the
borrower qualifies for (at least 750 gives 1.5, else at least 700 gives 1.0, else at
least 650 gives 0.5, else none; non-cumulative). -/
def ficoTierDiscount (fico : ℚ) : ℚ :=
  if 750 ≤ fico then 1.5 else if 700 ≤ fico then 1 else if 650 ≤ fico then 0.5 else 0

/-- Modelled from the spec: the experience discount (Professional 0.5,
Experienced 0.25, otherwise none). -/
def experienceDiscount (experience : String) : ℚ :=
  if experience = "Professional" then 0.5
  else if experience = "Experienced" then 0.25
  else 0

/-- Modelled from the spec: base rate 8.5 minus the single FICO-tier discount
minus the experience discount, clamped from below at the minimum rate 6.0. -/
def interestRateSpec (fico : ℚ) (experience : String) : ℚ :=
  max (8.5 - ficoTierDiscount fico - experienceDiscount experience) 6

/-! Concrete inputs used by the scenario claims. -/

/-- The spec section 8 scenario input: purchasePrice 200000, rehabBudget 50000,
arv 300000, fico 760, experience Professional. -/
def sampleDeal : LoanSizerForm :=
  { address := "123 Main St"
    transactionType := "Purchase"
    purchasePrice := 200000
    rehabBudget := 50000
    arv := 300000
    borrowerFico := 760
    borrowerExperience := "Professional" }

/-- The fico-600 scenario input (all other fields schema-valid and passing). -/
def pendingDeal : LoanSizerForm :=
  { sampleDeal with borrowerFico := 600, borrowerExperience := "Intermediate" }

/-- A deal with both the rehab-budget check and the ARV-ratio check violated:
rehabBudget 60000 exceeds half of purchasePrice 100000, and arv 110000 is below
1.2 times the purchase price. -/
def doubleViolationDeal : LoanSizerForm :=
  { address := "9 Oak Ave"
    transactionType := "Refinance"
    purchasePrice := 100000
    rehabBudget := 60000
    arv := 110000
    borrowerFico := 700
    borrowerExperience := "Experienced" }

/-- A deal with a negative purchase price, used to probe `validateInputs`
directly outside the schema invariants. -/
def negativePriceDeal : LoanSizerForm :=
  { address := "1 Elm St"
    transactionType := "Purchase"
    purchasePrice := -1000
    rehabBudget := 0
    arv := 1000
    borrowerFico := 700
    borrowerExperience := "Beginner" }

/-- A deal with purchase price zero, below every schema minimum for that field. -/
def zeroPriceDeal : LoanSizerForm :=
  { negativePriceDeal with purchasePrice := 0 }

/-! Helper lemmas shared by the claim theorems. -/

/-- The cascading-conditional interest-rate computation of the source agrees with
the spec's tiered-discount formulation. -/
lemma interestRate_eq_spec (fico : ℚ) (experience : String) :
    loanFormulas.interestRate fico experience = interestRateSpec fico experience := by
  unfold loanFormulas.interestRate interestRateSpec ficoTierDiscount experienceDiscount
  simp only [ge_iff_le]
  split_ifs <;> norm_num

/-- The clamp `Math.max(baseRate, 6.0)` bounds the interest rate below by 6. -/
lemma six_le_interestRate (fico : ℚ) (experience : String) :
    6 ≤ loanFormulas.interestRate fico experience := by
  unfold loanFormulas.interestRate
  exact le_trans (by norm_num) (le_max_right _ _)

/-- The LTV switch only ever returns a value of at most 85. -/
lemma ltvByExperience_le (experience : String) :
    loanFormulas.ltvByExperience experience ≤ 85 := by
  unfold loanFormulas.ltvByExperience
  split_ifs <;> norm_num

/-- The `approvalStatus` field of the result record, unfolded. -/
lemma approvalStatus_eq (data : LoanSizerForm) (rules : ValidationRules) :
    (calculateLoan data rules).approvalStatus =
      if data.borrowerFico ≥ rules.minFico then "Approved" else "Pending Review" := rfl

/-! Claim theorems. -/

/-- C1: the monthly-payment expression of `calculateLoan` (page.tsx lines 116-117)
has no special case for a 0% interest rate: evaluated at rate 0 it does not return
`maxLoanAmount / 360` (in this rational model the 0/0 expression collapses to 0;
in JavaScript it is NaN).  The case is unreachable with the shipped hardcoded
formula, whose rate is always positive (clamped at 6.0). -/
theorem monthlyPayment_zero_rate_not_special_cased :
    monthlyPaymentFormula 360000 0 = 0 ∧
    (360000 : ℚ) / 360 = 1000 ∧
    monthlyPaymentFormula 360000 0 ≠ (360000 : ℚ) / 360 ∧
    ∀ (fico : ℚ) (experience : String), 0 < loanFormulas.interestRate fico experience := by
  refine ⟨by norm_num [monthlyPaymentFormula], by norm_num,
    by norm_num [monthlyPaymentFormula], fun fico experience => ?_⟩
  exact lt_of_lt_of_le (by norm_num) (six_le_interestRate fico experience)

/-- C2: `approvalStatus` is "Approved" exactly when `borrowerFico` reaches the
configurable `ValidationRules.minFico` — the same threshold `validateInputs`
check 1 reads — and "Pending Review" otherwise; in particular the fico-600 deal
fails validation yet, with `calculateLoan` invoked directly, still gets
"Pending Review". -/
theorem approvalStatus_uses_rules_minFico (data : LoanSizerForm) (rules : ValidationRules) :
    ((calculateLoan data rules).approvalStatus = "Approved" ↔
      rules.minFico ≤ data.borrowerFico) ∧
    ((calculateLoan data rules).approvalStatus = "Pending Review" ↔
      data.borrowerFico < rules.minFico) ∧
    (calculateLoan pendingDeal validationRules).approvalStatus = "Pending Review" ∧
    validateInputs pendingDeal validationRules ≠ [] := by
  refine ⟨?_, ?_, ?_, ?_⟩
  · rw [approvalStatus_eq]
    split_ifs with h
    · simpa using h
    · simpa using h
  · rw [approvalStatus_eq]
    split_ifs with h
    · simpa using not_lt.mpr h
    · simpa using not_le.mp h
  · rw [approvalStatus_eq]
    norm_num [pendingDeal, sampleDeal, validationRules]
  · norm_num [validateInputs, pendingDeal, sampleDeal, validationRules]

/-- C3: the interest rate equals base 8.5 minus the single highest qualifying
FICO-tier discount minus the experience discount, clamped below at 6.0; hence it
is always at least the minimum rate, and around the 750 boundary the 1.5 discount
applies only from 750 upward. -/
theorem interestRate_tiered_and_clamped (fico : ℚ) (experience : String) :
    loanFormulas.interestRate fico experience = interestRateSpec fico experience ∧
    6 ≤ loanFormulas.interestRate fico experience ∧
    loanFormulas.interestRate 749 experience =
      max (8.5 - 1 - experienceDiscount experience) 6 ∧
    loanFormulas.interestRate 750 experience =
      max (8.5 - 1.5 - experienceDiscount experience) 6 ∧
    loanFormulas.interestRate 751 experience =
      max (8.5 - 1.5 - experienceDiscount experience) 6 := by
  refine ⟨interestRate_eq_spec fico experience, six_le_interestRate fico experience, ?_, ?_, ?_⟩
  all_goals rw [interestRate_eq_spec]; unfold interestRateSpec ficoTierDiscount; norm_num

/-- C4: `validateInputs` runs its three checks independently and returns all
violated ones: the result is empty exactly when no check fires, and a deal
violating both the rehab-budget check and the ARV-ratio check gets both
messages. -/
theorem validateInputs_collects_all_violations (data : LoanSizerForm)
    (rules : ValidationRules) :
    (validateInputs data rules = [] ↔
      ¬ data.borrowerFico < rules.minFico ∧
      ¬ data.rehabBudget > rules.maxRehabBudget data.purchasePrice ∧
      ¬ data.arv / data.purchasePrice < rules.minArvToPurchaseRatio) ∧
    (data.rehabBudget > rules.maxRehabBudget data.purchasePrice →
      data.arv / data.purchasePrice < rules.minArvToPurchaseRatio →
      "Rehab budget cannot exceed 50% of purchase price" ∈ validateInputs data rules ∧
      "ARV should be at least 120% of purchase price for optimal financing" ∈
        validateInputs data rules) := by
  unfold validateInputs
  split_ifs <;> simp_all

/-- Witness for C4: the double-violation deal receives both the rehab-budget and
the ARV-ratio messages. -/
theorem validateInputs_collects_all_violations_witness :
    "Rehab budget cannot exceed 50% of purchase price" ∈
      validateInputs doubleViolationDeal validationRules ∧
    "ARV should be at least 120% of purchase price for optimal financing" ∈
      validateInputs doubleViolationDeal validationRules :=
  (validateInputs_collects_all_violations doubleViolationDeal validationRules).2
    (by norm_num [doubleViolationDeal, validationRules])
    (by norm_num [doubleViolationDeal, validationRules])

/-- C5: the spec's concrete scenario: purchasePrice 200000, rehabBudget 50000,
arv 300000, fico 760, experience Professional with the default tables yields
ltv 85, maxLoanAmount 255000, interestRate 6.5, closingCosts 7650,
originationFee 2550, totalProjectCost 250000, downPayment -5000, and
approvalStatus "Approved". -/
theorem sampleDeal_scenario :
    (calculateLoan sampleDeal validationRules).ltv = 85 ∧
    (calculateLoan sampleDeal validationRules).maxLoanAmount = 255000 ∧
    (calculateLoan sampleDeal validationRules).interestRate = 6.5 ∧
    (calculateLoan sampleDeal validationRules).closingCosts = 7650 ∧
    (calculateLoan sampleDeal validationRules).originationFee = 2550 ∧
    (calculateLoan sampleDeal validationRules).totalProjectCost = 250000 ∧
    (calculateLoan sampleDeal validationRules).downPayment = -5000 ∧
    (calculateLoan sampleDeal validationRules).approvalStatus = "Approved" := by
  norm_num [calculateLoan, sampleDeal, validationRules, loanFormulas.maxLoanAmount,
    loanFormulas.ltvByExperience, loanFormulas.interestRate, loanFormulas.closingCosts,
    loanFormulas.originationFee, jsRound]

/-- C6: the unrounded maximum loan amount is exactly `arv * (ltv / 100)` with the
LTV selected by experience tier, and the rounded output field is that product
passed through `Math.round`. -/
theorem maxLoanAmount_is_arv_times_ltv (data : LoanSizerForm) (rules : ValidationRules) :
    loanFormulas.maxLoanAmount data.arv (loanFormulas.ltvByExperience data.borrowerExperience) =
      data.arv * (loanFormulas.ltvByExperience data.borrowerExperience / 100) ∧
    (calculateLoan data rules).maxLoanAmount =
      jsRound (data.arv * (loanFormulas.ltvByExperience data.borrowerExperience / 100)) := by
  exact ⟨rfl, rfl⟩

/-- C7: rounding happens exactly once, on the final outputs: each monetary field
is `Math.round` of the exact unrounded expression, `interestRate` is rounded to
two decimals, and the monthly payment consumes the unrounded loan amount and
rate, not their rounded forms. -/
theorem rounding_applied_once_at_end (data : LoanSizerForm) (rules : ValidationRules) :
    (calculateLoan data rules).maxLoanAmount =
      jsRound (data.arv * (loanFormulas.ltvByExperience data.borrowerExperience / 100)) ∧
    (calculateLoan data rules).interestRate =
      (jsRound (interestRateSpec data.borrowerFico data.borrowerExperience * 100) : ℚ) / 100 ∧
    (calculateLoan data rules).closingCosts =
      jsRound (data.arv * (loanFormulas.ltvByExperience data.borrowerExperience / 100) *
        (3 / 100)) ∧
    (calculateLoan data rules).originationFee =
      jsRound (data.arv * (loanFormulas.ltvByExperience data.borrowerExperience / 100) *
        (1 / 100)) ∧
    (calculateLoan data rules).totalProjectCost =
      jsRound (data.purchasePrice + data.rehabBudget) ∧
    (calculateLoan data rules).downPayment =
      jsRound (data.purchasePrice + data.rehabBudget -
        data.arv * (loanFormulas.ltvByExperience data.borrowerExperience / 100)) ∧
    (calculateLoan data rules).monthlyPayment =
      jsRound (monthlyPaymentFormula
        (data.arv * (loanFormulas.ltvByExperience data.borrowerExperience / 100))
        (interestRateSpec data.borrowerFico data.borrowerExperience)) := by
  have h03 : (0.03 : ℚ) = 3 / 100 := by norm_num
  have h01 : (0.01 : ℚ) = 1 / 100 := by norm_num
  refine ⟨rfl, ?_, ?_, ?_, rfl, rfl, ?_⟩
  · simp [calculateLoan, interestRate_eq_spec]
  · simp [calculateLoan, loanFormulas.closingCosts, loanFormulas.maxLoanAmount, h03]
  · simp [calculateLoan, loanFormulas.originationFee, loanFormulas.maxLoanAmount, h01]
  · simp [calculateLoan, interestRate_eq_spec, loanFormulas.maxLoanAmount]

/-- C8: the down payment is `totalProjectCost - maxLoanAmount` with no clamp: the
sample scenario's loan amount exceeds its total project cost and the output is
the negative value -5000, not an error. -/
theorem downPayment_difference_unclamped (data : LoanSizerForm) (rules : ValidationRules) :
    (calculateLoan data rules).downPayment =
      jsRound (data.purchasePrice + data.rehabBudget -
        data.arv * (loanFormulas.ltvByExperience data.borrowerExperience / 100)) ∧
    (calculateLoan sampleDeal validationRules).downPayment = -5000 ∧
    (calculateLoan sampleDeal validationRules).downPayment < 0 := by
  refine ⟨rfl, ?_, ?_⟩ <;>
    norm_num [calculateLoan, sampleDeal, validationRules, loanFormulas.maxLoanAmount,
      loanFormulas.ltvByExperience, jsRound]

/-- Counterexample for C9: `validateInputs` itself has no guard on non-positive
purchase prices: invoked directly with purchasePrice -1000 it evaluates the
ARV-ratio division as usual and reports only the ordinary rehab-budget and
ARV-ratio messages, no distinct purchase-price failure. -/
theorem validateInputs_no_nonpositive_price_guard :
    validateInputs negativePriceDeal validationRules =
      ["Rehab budget cannot exceed 50% of purchase price",
       "ARV should be at least 120% of purchase price for optimal financing"] := by
  norm_num [validateInputs, negativePriceDeal, validationRules]

/-- C9 amended: non-positive purchase prices are rejected as a field-level
message by the zod schema, which runs before `validateInputs`; any input the
schema passes has a positive purchase price, so the ARV-ratio division in
`validateInputs` never sees a non-positive denominator in the validated flow. -/
theorem schema_rejects_nonpositive_price (data : LoanSizerForm) :
    (data.purchasePrice ≤ 0 →
      "Purchase price must be at least $1,000" ∈ loanSizerSchemaErrors data) ∧
    (loanSizerSchemaErrors data = [] → 0 < data.purchasePrice) := by
  constructor
  · intro h
    have h' : ¬ (1000 ≤ data.purchasePrice) := by linarith
    simp [loanSizerSchemaErrors, h']
  · intro h
    simp only [loanSizerSchemaErrors, List.append_eq_nil] at h
    by_contra h0
    have h' : ¬ (1000 ≤ data.purchasePrice) := by linarith [not_lt.mp h0]
    simp [h'] at h

/-- Witness for C9 amended: the schema rejects the purchase-price-zero deal with
the purchase-price field message. -/
theorem schema_rejects_nonpositive_price_witness :
    "Purchase price must be at least $1,000" ∈ loanSizerSchemaErrors zeroPriceDeal :=
  (schema_rejects_nonpositive_price zeroPriceDeal).1 (by norm_num [zeroPriceDeal, negativePriceDeal])

/-- C10: the LTV lookup returns one of 70, 75, 80, 85 for every experience
string, unrecognized strings get 70 like Beginner, so every computed LTV lies in
[70, 85] and the unrounded maximum loan amount is at most 85% of the ARV. -/
theorem ltvByExperience_bounded (experience : String) (data : LoanSizerForm) :
    (loanFormulas.ltvByExperience experience = 70 ∨
     loanFormulas.ltvByExperience experience = 75 ∨
     loanFormulas.ltvByExperience experience = 80 ∨
     loanFormulas.ltvByExperience experience = 85) ∧
    70 ≤ loanFormulas.ltvByExperience experience ∧
    loanFormulas.ltvByExperience experience ≤ 85 ∧
    loanFormulas.ltvByExperience "Beginner" = 70 ∧
    (experience ≠ "Professional" → experience ≠ "Experienced" →
      experience ≠ "Intermediate" → loanFormulas.ltvByExperience experience = 70) ∧
    (0 ≤ data.arv →
      loanFormulas.maxLoanAmount data.arv
          (loanFormulas.ltvByExperience data.borrowerExperience) ≤
        85 / 100 * data.arv) := by
  refine ⟨?_, ?_, ltvByExperience_le experience, by decide, ?_, ?_⟩
  · unfold loanFormulas.ltvByExperience
    split_ifs <;> norm_num
  · unfold loanFormulas.ltvByExperience
    split_ifs <;> norm_num
  · intro h1 h2 h3
    unfold loanFormulas.ltvByExperience
    split_ifs <;> simp_all
  · intro harv
    unfold loanFormulas.maxLoanAmount
    nlinarith [ltvByExperience_le data.borrowerExperience, harv]

/-- Witness for C10: an unrecognized experience string gets LTV 70, and the
sample deal's unrounded loan amount is within 85% of its ARV. -/
theorem ltvByExperience_bounded_witness :
    loanFormulas.ltvByExperience "Wholesaler" = 70 ∧
    loanFormulas.maxLoanAmount sampleDeal.arv
        (loanFormulas.ltvByExperience sampleDeal.borrowerExperience) ≤
      85 / 100 * sampleDeal.arv :=
  ⟨(ltvByExperience_bounded "Wholesaler" sampleDeal).2.2.2.2.1
      (by decide) (by decide) (by decide),
   (ltvByExperience_bounded "Wholesaler" sampleDeal).2.2.2.2.2 (by norm_num [sampleDeal])⟩

end LoanSizer
